import Mathlib

/-!
Verification of the new-release-notifier core.

A shallow embedding, in Lean 4, of the parts of the `new-release-notifier`
repository that the specification's claims are about:

* `src/disambiguation.py` — the `AlbumMatcher` similarity and confidence engine
  (including a faithful model of Python's `difflib.SequenceMatcher.ratio`,
  which `calculate_similarity` calls);
* `src/musicbrainz.py` — the `MusicBrainzClient` retry wrapper, release-group
  fetching and date parsing, artist search, and disambiguation policy;
* `src/database.py` — the `releases` insert (`add_release`) and the two
  scheduler batch-selection queries over the `artists` relation.

Python floats are modelled as `ℚ`, Python exceptions as explicit error values
(`Except` / a result type), the SQLite store as lists of rows.  External call
results (catalog API responses) are inputs of the embedded functions.
-/

namespace NRN

/-! ## Python string primitives used by `AlbumMatcher.normalize_album_title`

The regular expressions in the source are `[^\w\s]` and `\s+`; `\w` is
letters, digits and underscore, `\s` is whitespace.  We model the ASCII
fragment (all concrete inputs in this development are ASCII). -/

def pyIsSpace (c : Char) : Bool :=
  c = ' ' || c = '\t' || c = '\n' || c = '\r' || c = '\x0b' || c = '\x0c'

def pyIsWordChar (c : Char) : Bool :=
  c.isAlphanum || c = '_'

/-- `str.lower()` (ASCII model). -/
def pyLower (s : List Char) : List Char :=
  s.map Char.toLower

/-- `str.strip()`: drop leading and trailing whitespace. -/
def pyStrip (s : List Char) : List Char :=
  ((s.dropWhile pyIsSpace).reverse.dropWhile pyIsSpace).reverse

/-- `re.sub(r"[^\w\s]", " ", s)`: replace every character that is neither a
word character nor whitespace by a single space. -/
def subNonWordToSpace (s : List Char) : List Char :=
  s.map fun c => if pyIsWordChar c || pyIsSpace c then c else ' '

/-- `re.sub(r"\s+", " ", s)`: collapse each maximal whitespace run to one
space.  The boolean records whether the previous character was whitespace. -/
def collapseWSAux : Bool → List Char → List Char
  | _, [] => []
  | prevSpace, c :: rest =>
    if pyIsSpace c then
      if prevSpace then collapseWSAux true rest
      else ' ' :: collapseWSAux true rest
    else c :: collapseWSAux false rest

def collapseWS (s : List Char) : List Char :=
  collapseWSAux false s

/-- `str.split()` with no arguments: split on whitespace runs, dropping empty
pieces.  The accumulator holds the current word reversed. -/
def pySplitAux : List Char → List Char → List (List Char)
  | [], cur => if cur.isEmpty then [] else [cur.reverse]
  | c :: rest, cur =>
    if pyIsSpace c then
      if cur.isEmpty then pySplitAux rest []
      else cur.reverse :: pySplitAux rest []
    else pySplitAux rest (c :: cur)

def pySplit (s : List Char) : List (List Char) :=
  pySplitAux s []

/-- `" ".join(words)`. -/
def joinSpaces : List (List Char) → List Char
  | [] => []
  | [w] => w
  | w :: ws => w ++ ' ' :: joinSpaces ws

/-- Python `needle in hay` on strings: contiguous substring test. -/
def pyInStr (needle hay : List Char) : Bool :=
  match hay with
  | [] => needle.isEmpty
  | _ :: t => needle.isPrefixOf hay || pyInStr needle t

/-! ## `AlbumMatcher.normalize_album_title` (src/disambiguation.py lines 27-52) -/

/-- `AlbumMatcher.COMMON_WORDS`. -/
def COMMON_WORDS : List String :=
  ["remastered", "deluxe", "expanded", "edition", "special", "bonus", "disc",
   "cd", "lp"]

/-- `AlbumMatcher.normalize_album_title`: lowercase and strip, replace
punctuation by spaces, collapse whitespace, drop stop words; if the stop-word
filter empties the result, fall back to the punctuation-stripped lowercase
form of the original title. -/
def normalize_album_title (title : String) : String :=
  if title = "" then ""
  else
    let lowered := pyLower title.data
    let n0 := pyStrip lowered
    let n1 := subNonWordToSpace n0
    let n2 := pyStrip (collapseWS n1)
    let words := pySplit n2
    let filtered := words.filter fun w => ¬ COMMON_WORDS.contains (String.mk w)
    if filtered.isEmpty then
      String.mk (pyStrip (subNonWordToSpace (pyLower title.data)))
    else
      String.mk (joinSpaces filtered)

/-! ## Python `difflib.SequenceMatcher(None, a, b).ratio()`

`AlbumMatcher.calculate_similarity` calls `SequenceMatcher(None, ...).ratio()`.
We embed the stdlib algorithm: the per-element index map `b2j` (with the
`autojunk` purge of popular elements for `len(b) >= 200`), the
`find_longest_match` dynamic-programming scan with its extension loops, the
recursive block decomposition of `get_matching_blocks`, and
`ratio = 2*M/T`.  With `isjunk=None` the junk set `bjunk` is empty, so the
junk-extension loops of `find_longest_match` never fire and are omitted. -/

def charAt (s : List Char) (i : Nat) : Char :=
  s.getD i ' '

def countChar (b : List Char) (c : Char) : Nat :=
  (b.filter (· = c)).length

/-- Ascending positions of `c` in `b`. -/
def charPositions (b : List Char) (c : Char) : List Nat :=
  (List.range b.length).filter fun j => charAt b j = c

/-- `self.b2j` after `__chain_b`: positions of `c` in `b`, with "popular"
elements purged when `autojunk` applies (`len(b) >= 200` and the element
occurs more than `len(b)//100 + 1` times). -/
def b2j (b : List Char) (c : Char) : List Nat :=
  if 200 ≤ b.length && b.length / 100 + 1 < countChar b c then []
  else charPositions b c

structure FLMState where
  besti : Nat
  bestj : Nat
  bestk : Nat
deriving Repr, DecidableEq

/-- One inner step of the `find_longest_match` scan: for a fixed row `i` and a
position `j` of `a[i]` in `b`, extend the run ending at `(i-1, j-1)`.  The
accumulator carries the row-local `newj2len` (as a total function, default 0)
and the best block found so far;  `j2len` is the previous row's map.  Python's
`j2len.get(j-1, 0)` reads index `-1` as 0 when `j = 0`. -/
def flmStep (j2len : Nat → Nat) (i : Nat)
    (acc : (Nat → Nat) × FLMState) (j : Nat) : (Nat → Nat) × FLMState :=
  let k := (if j = 0 then 0 else j2len (j - 1)) + 1
  let nj : Nat → Nat := fun x => if x = j then k else acc.1 x
  let st := acc.2
  if st.bestk < k then (nj, ⟨i + 1 - k, j + 1 - k, k⟩) else (nj, st)

/-- The row loop of `find_longest_match`:  `for i in range(alo, ahi)`, with
`for j in b2j.get(a[i], [])` restricted to `blo <= j < bhi` (the list is
ascending, so Python's `continue`/`break` amount to this filter). -/
def flmRows (a b : List Char) (blo bhi : Nat) :
    List Nat → (Nat → Nat) → FLMState → FLMState
  | [], _, st => st
  | i :: rest, j2len, st =>
    let js := (b2j b (charAt a i)).filter fun j => blo ≤ j && j < bhi
    let r := js.foldl (flmStep j2len i) ((fun _ => 0), st)
    flmRows a b blo bhi rest r.1 r.2

/-- First extension loop: grow the best block downwards over equal
(non-junk) characters.  Each iteration decrements `besti` and the loop
requires `alo < besti`, so fuel `besti` makes the recursion structural
without changing the result. -/
def extendLowFuel (a b : List Char) (alo blo : Nat) :
    Nat → FLMState → FLMState
  | 0, st => st
  | fuel + 1, st =>
    if alo < st.besti ∧ blo < st.bestj ∧
        charAt a (st.besti - 1) = charAt b (st.bestj - 1) then
      extendLowFuel a b alo blo fuel ⟨st.besti - 1, st.bestj - 1, st.bestk + 1⟩
    else st

def extendLow (a b : List Char) (alo blo : Nat) (st : FLMState) : FLMState :=
  extendLowFuel a b alo blo st.besti st

/-- Second extension loop: grow the best block upwards over equal
(non-junk) characters.  Each iteration increments `bestk` and the loop
requires `besti + bestk < ahi`, so fuel `ahi` suffices. -/
def extendHighFuel (a b : List Char) (ahi bhi : Nat) :
    Nat → FLMState → FLMState
  | 0, st => st
  | fuel + 1, st =>
    if st.besti + st.bestk < ahi ∧ st.bestj + st.bestk < bhi ∧
        charAt a (st.besti + st.bestk) = charAt b (st.bestj + st.bestk) then
      extendHighFuel a b ahi bhi fuel ⟨st.besti, st.bestj, st.bestk + 1⟩
    else st

def extendHigh (a b : List Char) (ahi bhi : Nat) (st : FLMState) : FLMState :=
  extendHighFuel a b ahi bhi ahi st

/-- `SequenceMatcher.find_longest_match(alo, ahi, blo, bhi)` (with
`isjunk=None`, so the junk-extension loops are identities). -/
def find_longest_match (a b : List Char) (alo ahi blo bhi : Nat) : FLMState :=
  let st := flmRows a b blo bhi (List.range' alo (ahi - alo)) (fun _ => 0)
    ⟨alo, blo, 0⟩
  extendHigh a b ahi bhi (extendLow a b alo blo st)

/-- Total size of the matching blocks produced by
`get_matching_blocks` restricted to the window, written as the natural
recursion (the stdlib uses an explicit queue; the sum of block sizes is the
same).  Each recursive call strictly shrinks the window, so fuel
`a.length + b.length + 1` always suffices. -/
def matchTotalAux (a b : List Char) : Nat → Nat → Nat → Nat → Nat → Nat
  | 0, _, _, _, _ => 0
  | fuel + 1, alo, ahi, blo, bhi =>
    let m := find_longest_match a b alo ahi blo bhi
    if m.bestk = 0 then 0
    else
      m.bestk + matchTotalAux a b fuel alo m.besti blo m.bestj +
        matchTotalAux a b fuel (m.besti + m.bestk) ahi (m.bestj + m.bestk) bhi

def matchTotal (a b : List Char) : Nat :=
  matchTotalAux a b (a.length + b.length + 1) 0 a.length 0 b.length

/-- `SequenceMatcher.ratio() = 2*M/T` (`_calculate_ratio` returns 1.0 when
both sequences are empty). -/
def sequenceRatio (a b : List Char) : ℚ :=
  if a.length + b.length = 0 then 1
  else 2 * (matchTotal a b : ℚ) / ((a.length : ℚ) + (b.length : ℚ))

/-! ## `AlbumMatcher.calculate_similarity` (src/disambiguation.py lines 54-74) -/

/-- `AlbumMatcher.calculate_similarity`: normalize both titles; a pair with an
empty normalization scores 0; equal normalizations score 1; otherwise the
`SequenceMatcher` ratio, raised to at least 0.8 when one normalized title is
a substring of the other. -/
def calculate_similarity (title1 title2 : String) : ℚ :=
  let norm1 := normalize_album_title title1
  let norm2 := normalize_album_title title2
  if norm1 = "" || norm2 = "" then 0
  else if norm1 = norm2 then 1
  else
    let s := sequenceRatio norm1.data norm2.data
    if pyInStr norm1.data norm2.data || pyInStr norm2.data norm1.data then
      max s (8 / 10)
    else s

/-! ## `AlbumMatcher.get_confidence_level` (src/disambiguation.py lines 133-143) -/

/-- `AlbumMatcher.get_confidence_level`: fixed thresholds 0.75 / 0.5 / 0.2. -/
def get_confidence_level (score : ℚ) : String :=
  if 75 / 100 ≤ score then "high"
  else if 50 / 100 ≤ score then "medium"
  else if 20 / 100 ≤ score then "low"
  else "none"

/-- Rank of a confidence level under the ordering
`none < low < medium < high`. -/
def levelRank : String → Nat
  | "low" => 1
  | "medium" => 2
  | "high" => 3
  | _ => 0

/-! ## `AlbumMatcher.find_best_matches` (src/disambiguation.py lines 76-131)

The source reads only `release.get("title", "")` from each release dict, so
the embedding takes the list of (optional) titles of the catalog releases. -/

/-- The inner loop of `find_best_matches`: the best (strictly first-maximal)
similarity and the corresponding catalog title for one local album, starting
from `best_similarity = 0.0`, `best_mb_title = ""`. -/
def bestMatchFor (local_album : String) (mb_titles : List String) : ℚ × String :=
  mb_titles.foldl
    (fun best t =>
      let s := calculate_similarity local_album t
      if best.1 < s then (s, t) else best)
    (0, "")

/-- Accumulator of the outer loop of `find_best_matches`: kept matches, sum of
kept scores, number of kept matches. -/
structure FBMState where
  kept : List (String × String × ℚ)
  total : ℚ
  count : Nat
deriving Repr, DecidableEq

def fbmStep (mb_titles : List String) (min_similarity : ℚ)
    (st : FBMState) (la : String) : FBMState :=
  let b := bestMatchFor la mb_titles
  if min_similarity ≤ b.1 then
    ⟨st.kept ++ [(la, b.2, b.1)], st.total + b.1, st.count + 1⟩
  else st

/-- `AlbumMatcher.find_best_matches`: per local album keep the best-scoring
catalog title when its score reaches `min_similarity`; the confidence is the
average kept score times the kept-match ratio, 0 when nothing is kept, and
`([], 0.0)` when either input list is empty. -/
def find_best_matches (local_albums : List String)
    (mb_release_titles : List (Option String)) (min_similarity : ℚ) :
    List (String × String × ℚ) × ℚ :=
  if local_albums.isEmpty || mb_release_titles.isEmpty then ([], 0)
  else
    let mb_titles := mb_release_titles.map (fun o => o.getD "")
    let st := local_albums.foldl (fbmStep mb_titles min_similarity) ⟨[], 0, 0⟩
    let conf : ℚ :=
      if st.count = 0 then 0
      else (st.total / (st.count : ℚ)) * ((st.count : ℚ) / (local_albums.length : ℚ))
    (st.kept, conf)

/-! ## `MusicBrainzClient._retry_with_backoff` (src/musicbrainz.py lines 53-107)

The wrapped call is modelled by `outcome n` (result of the `n`-th invocation
of `func`), `dur n` (wall-clock time consumed by the rate-limit wait plus the
`n`-th invocation) and `jitterFrac n` (the value drawn by
`random.uniform(0.1, 0.3)` before the `n`-th backoff sleep).  The trace
records the result, the number of invocations of `func`, and the backoff
sleeps performed. -/

inductive PyExc where
  | networkError
  | responseError (causeCode : Option Int)
  | otherExc
  | connectionTimeout
deriving Repr, DecidableEq

/-- Result of `_retry_with_backoff`: a value, a raised exception, or the
`for` loop completing without any iteration (`max_retries = 0`), in which
case Python falls off the function and returns `None`. -/
inductive RetryOutcome (α : Type) where
  | ok (v : α)
  | exc (e : PyExc)
  | exhausted
deriving Repr, DecidableEq

structure RetryCfg where
  max_retries : Nat
  connection_timeout : ℚ
  initial_backoff : ℚ
  max_backoff : ℚ

structure RetryTrace (α : Type) where
  result : RetryOutcome α
  tries : Nat
  sleeps : List ℚ
deriving Repr, DecidableEq

/-- Which exceptions the `except` ladder retries (when not on the last
attempt): `NetworkError` yes; `ResponseError` only with cause code 429; any
other exception is caught by the final `except Exception` and retried. -/
def retryable : PyExc → Bool
  | .responseError c => c = some 429
  | _ => true

/-- The `for attempt in range(self.max_retries)` loop.  `now` is the wall
clock at the top of the iteration (Python's `elapsed_time`), which the code
also reuses, stale, for the backoff-overrun check. -/
def retryLoop {α : Type} (cfg : RetryCfg) (outcome : Nat → Except PyExc α)
    (dur : Nat → ℚ) (jitterFrac : Nat → ℚ) :
    Nat → Nat → ℚ → Nat → List ℚ → RetryTrace α
  | 0, _, _, tries, sleeps => ⟨.exhausted, tries, sleeps⟩
  | fuel + 1, attempt, now, tries, sleeps =>
    if cfg.connection_timeout < now then ⟨.exc .connectionTimeout, tries, sleeps⟩
    else
      match outcome attempt with
      | .ok v => ⟨.ok v, tries + 1, sleeps⟩
      | .error e =>
        if !retryable e || attempt == cfg.max_retries - 1 then
          ⟨.exc e, tries + 1, sleeps⟩
        else
          let sleep_time := min (cfg.initial_backoff * 2 ^ attempt) cfg.max_backoff
          let total_sleep := sleep_time + jitterFrac attempt * sleep_time
          if cfg.connection_timeout < now + total_sleep then
            let remaining := cfg.connection_timeout - now
            if remaining ≤ 0 then ⟨.exc .connectionTimeout, tries + 1, sleeps⟩
            else
              retryLoop cfg outcome dur jitterFrac fuel (attempt + 1)
                (now + dur attempt + remaining) (tries + 1) (sleeps ++ [remaining])
          else
            retryLoop cfg outcome dur jitterFrac fuel (attempt + 1)
              (now + dur attempt + total_sleep) (tries + 1) (sleeps ++ [total_sleep])

/-- `MusicBrainzClient._retry_with_backoff` (started at `start_time`, i.e.
relative clock 0). -/
def retry_with_backoff {α : Type} (cfg : RetryCfg) (outcome : Nat → Except PyExc α)
    (dur : Nat → ℚ) (jitterFrac : Nat → ℚ) : RetryTrace α :=
  retryLoop cfg outcome dur jitterFrac cfg.max_retries 0 0 0 []

/-! ## Date parsing in `get_release_groups` (src/musicbrainz.py lines 165-197) -/

structure PyDate where
  year : Nat
  month : Nat
  day : Nat
deriving Repr, DecidableEq

def isLeapYear (y : Nat) : Bool :=
  (y % 4 = 0 && y % 100 ≠ 0) || y % 400 = 0

def daysInMonth (y m : Nat) : Nat :=
  if m = 2 then (if isLeapYear y then 29 else 28)
  else if m = 4 || m = 6 || m = 9 || m = 11 then 30
  else 31

def allDigits (s : List Char) : Bool :=
  s.all Char.isDigit

def digitsToNat (s : List Char) : Nat :=
  s.foldl (fun n c => n * 10 + (c.toNat - '0'.toNat)) 0

/-- Split on a separator character, keeping empty pieces (the semantics of
`str.split("-")` for a one-character separator).  The accumulator holds the
current piece reversed. -/
def splitOnCharAux (c : Char) : List Char → List Char → List (List Char)
  | [], cur => [cur.reverse]
  | x :: rest, cur =>
    if x = c then cur.reverse :: splitOnCharAux c rest []
    else splitOnCharAux c rest (x :: cur)

def splitOnChar (c : Char) (s : List Char) : List (List Char) :=
  splitOnCharAux c s []

/-- `datetime.strptime(s, "%Y-%m-%d")`: `%Y` is exactly four digits (year at
least 1), `%m` one or two digits in 1..12, `%d` one or two digits valid for
the month, and the whole string must be consumed. -/
def parseFullDate (s : String) : Option PyDate :=
  match splitOnChar '-' s.data with
  | [y, m, d] =>
    if allDigits y && y.length == 4 && allDigits m && 1 ≤ m.length && m.length ≤ 2
        && allDigits d && 1 ≤ d.length && d.length ≤ 2 then
      let yv := digitsToNat y
      let mv := digitsToNat m
      let dv := digitsToNat d
      if 1 ≤ yv && 1 ≤ mv && mv ≤ 12 && 1 ≤ dv && dv ≤ daysInMonth yv mv then
        some ⟨yv, mv, dv⟩
      else none
    else none
  | _ => none

/-- `datetime.strptime(s, "%Y-%m")` (day defaults to 1). -/
def parseYearMonth (s : String) : Option PyDate :=
  match splitOnChar '-' s.data with
  | [y, m] =>
    if allDigits y && y.length == 4 && allDigits m && 1 ≤ m.length && m.length ≤ 2 then
      let yv := digitsToNat y
      let mv := digitsToNat m
      if 1 ≤ yv && 1 ≤ mv && mv ≤ 12 then some ⟨yv, mv, 1⟩ else none
    else none
  | _ => none

/-- The nested `try`/`except ValueError` ladder of `get_release_groups`: the
full date format first, then the year-month format; no further fallback. -/
def parseReleaseDate (s : String) : Option PyDate :=
  match parseFullDate s with
  | some d => some d
  | none => parseYearMonth s

/-- `datetime` comparison (dates at midnight): lexicographic. -/
def dateLt (d1 d2 : PyDate) : Bool :=
  d1.year < d2.year ||
    (d1.year = d2.year &&
      (d1.month < d2.month || (d1.month = d2.month && d1.day < d2.day)))

/-! ## `MusicBrainzClient.get_release_groups` (src/musicbrainz.py lines 128-212) -/

/-- A raw release-group record from a catalog response.  `none` models a
missing dict key (`rg["id"]` / `rg["title"]` then raise `KeyError`, caught by
the per-record `except Exception`; `rg.get("type", "")` defaults to `""`). -/
structure RGRecord where
  rgid : Option String
  title : Option String
  rtype : Option String
  first_release_date : Option String
deriving Repr, DecidableEq

/-- One entry of the list built by `get_release_groups`. -/
structure RGOut where
  rgid : String
  title : String
  rtype : String
  first_release_date : String
  parsed_date : PyDate
deriving Repr, DecidableEq

structure RGFilterCfg where
  excluded_release_types : List String
  included_release_types : List String

/-- The per-record body of the `for rg in release_groups` loop: skip records
without a date, apply the type filters, parse the date (full format, then
year-month, else skip), apply the `since_date` filter, and keep the record if
its `id` and `title` are present (a missing key is caught by the per-record
`except Exception` and the record is skipped). -/
def processRG (cfg : RGFilterCfg) (since : Option PyDate) (rg : RGRecord) :
    Option RGOut :=
  match rg.first_release_date with
  | none => none
  | some date_str =>
    let release_type := rg.rtype.getD ""
    if !cfg.excluded_release_types.isEmpty &&
        cfg.excluded_release_types.contains release_type then none
    else if !cfg.included_release_types.isEmpty &&
        !cfg.included_release_types.contains release_type then none
    else
      match parseReleaseDate date_str with
      | none => none
      | some d =>
        if (match since with | some s => dateLt d s | none => false) then none
        else
          match rg.rgid, rg.title with
          | some i, some t => some ⟨i, t, release_type, date_str, d⟩
          | _, _ => none

def page_size : Nat := 25

/-- The `while True` pagination loop: each element of `pages` is the result of
one retry-wrapped `browse_release_groups` call (`exhausted` models the wrapper
returning `None`, on which the subscript raises).  The loop stops after a page
shorter than `page_size`; an exhausted `pages` list models the catalog having
no further data. -/
def getRGLoop (cfg : RGFilterCfg) (since : Option PyDate) :
    List (RetryOutcome (List RGRecord)) → List RGOut → Except PyExc (List RGOut)
  | [], acc => .ok acc
  | p :: rest, acc =>
    match p with
    | .exc e => .error e
    | .exhausted => .error .otherExc
    | .ok rgs =>
      let acc2 := acc ++ rgs.filterMap (processRG cfg since)
      if rgs.length < page_size then .ok acc2
      else getRGLoop cfg since rest acc2

/-- `except Exception: return default` around a function body. -/
def pyTry {α : Type} (body : Except PyExc α) (default : α) : Except PyExc α :=
  match body with
  | .ok v => .ok v
  | .error _ => .ok default

/-- Body of `get_release_groups` (inside its `try`). -/
def get_release_groups_body (cfg : RGFilterCfg) (since : Option PyDate)
    (pages : List (RetryOutcome (List RGRecord))) : Except PyExc (List RGOut) :=
  getRGLoop cfg since pages []

/-- `get_release_groups` with its enclosing `try`/`except Exception` (which
returns `[]`). -/
def get_release_groupsE (cfg : RGFilterCfg) (since : Option PyDate)
    (pages : List (RetryOutcome (List RGRecord))) : Except PyExc (List RGOut) :=
  pyTry (get_release_groups_body cfg since pages) []

/-- The value `get_release_groups` returns to its caller. -/
def get_release_groups (cfg : RGFilterCfg) (since : Option PyDate)
    (pages : List (RetryOutcome (List RGRecord))) : List RGOut :=
  match get_release_groupsE cfg since pages with
  | .ok l => l
  | .error _ => []

/-! ## `MusicBrainzClient.search_artist` (src/musicbrainz.py lines 109-126) -/

structure ArtistCandidate where
  id : String
deriving Repr, DecidableEq

/-- A `search_artists` response: `result["artist-count"]` and
`result["artist-list"]` (the two need not be consistent). -/
structure ArtistSearchResp where
  artist_count : Int
  artist_list : List ArtistCandidate
deriving Repr, DecidableEq

/-- Body of `search_artist` (inside its `try`), given the result of the
retry-wrapped `search_artists` call: `exhausted` (the wrapper returned
`None`) makes the subscript raise, and `result["artist-list"][0]` raises
`IndexError` on an empty list. -/
def search_artist_body (r : RetryOutcome ArtistSearchResp) :
    Except PyExc (Option String) :=
  match r with
  | .exc e => .error e
  | .exhausted => .error .otherExc
  | .ok resp =>
    if 0 < resp.artist_count then
      match resp.artist_list with
      | [] => .error .otherExc
      | c :: _ => .ok (some c.id)
    else .ok none

/-- `search_artist` with its `try`/`except Exception` (which returns `None`). -/
def search_artistE (r : RetryOutcome ArtistSearchResp) : Except PyExc (Option String) :=
  pyTry (search_artist_body r) none

def search_artist (r : RetryOutcome ArtistSearchResp) : Option String :=
  match search_artistE r with
  | .ok v => v
  | .error _ => none

/-! ## `MusicBrainzClient.validate_artist_confidence` (src/musicbrainz.py lines 219-264)

In the embedding the body inside the `try` cannot raise (its only call,
`get_release_groups`, already catches every exception and returns a list), so
the function is pure; the guard on `known_albums` sits before the `try` in
the source and is modelled first. -/

def validate_artist_confidence (known_albums : List String)
    (album_match_weight : ℚ) (cfg : RGFilterCfg)
    (pages : List (RetryOutcome (List RGRecord))) : ℚ × String :=
  if known_albums.isEmpty then (0, "none")
  else
    let all_releases := get_release_groups cfg none pages
    if all_releases.isEmpty then (0, "none")
    else
      let r := find_best_matches known_albums
        (all_releases.map fun o => some o.title) album_match_weight
      (r.2, get_confidence_level r.2)

/-! ## `MusicBrainzClient.search_artist_with_disambiguation`
(src/musicbrainz.py lines 266-321)

The per-candidate scoring call `self.validate_artist_confidence(candidate_id,
known_albums)` is abstracted as an oracle `validate : String → ℚ × String`
(it never raises, see above, so the inner `try`/`except` is inert). -/

/-- Python truthiness of `best_candidate` (`None` and `""` are falsy). -/
def pyTruthyOptStr : Option String → Bool
  | none => false
  | some s => !(s == "")

/-- One iteration of the candidate loop: update the best candidate on a
strictly larger confidence score. -/
def sawdStep (validate : String → ℚ × String)
    (st : Option String × ℚ × String) (cand : ArtistCandidate) :
    Option String × ℚ × String :=
  let r := validate cand.id
  if st.2.1 < r.1 then (some cand.id, r.1, r.2) else st

/-- Body of `search_artist_with_disambiguation` (inside its `try`). -/
def search_artist_with_disambiguation_body (r : RetryOutcome ArtistSearchResp)
    (validate : String → ℚ × String) (known_albums : List String)
    (min_confidence_threshold : ℚ) : Except PyExc (Option String × String) :=
  match r with
  | .exc e => .error e
  | .exhausted => .error .otherExc
  | .ok resp =>
    if resp.artist_count = 0 then .ok (none, "none")
    else
      match resp.artist_list with
      | [] => .error .otherExc
      | c0 :: _ =>
        if known_albums.isEmpty then .ok (some c0.id, "low")
        else
          let st := resp.artist_list.foldl (sawdStep validate) (none, 0, "none")
          if pyTruthyOptStr st.1 && min_confidence_threshold ≤ st.2.1 then
            .ok (st.1, st.2.2)
          else .ok (some c0.id, "low")

/-- `search_artist_with_disambiguation` with its `try`/`except Exception`
(which returns `(None, "none")`). -/
def search_artist_with_disambiguationE (r : RetryOutcome ArtistSearchResp)
    (validate : String → ℚ × String) (known_albums : List String)
    (min_confidence_threshold : ℚ) : Except PyExc (Option String × String) :=
  pyTry (search_artist_with_disambiguation_body r validate known_albums
    min_confidence_threshold) (none, "none")

/-! ## `Database` (src/database.py)

The two relations are modelled as lists of rows; timestamps as integers
(`none` = SQL `NULL`). -/

structure ReleaseRow where
  artist_id : Int
  musicbrainz_id : String
  title : String
  release_date : String
  release_type : Option String
deriving Repr, DecidableEq

/-- `Database.add_release` (src/database.py lines 177-196): `INSERT OR IGNORE`
into `releases`, whose `musicbrainz_id` column is `UNIQUE`; returns
`cursor.rowcount > 0`, i.e. whether a row was actually inserted.  (Calls are
modelled with a valid `artist_id` reference; the foreign-key constraint is
outside this claim's scope.) -/
def add_release (releases : List ReleaseRow) (artist_id : Int)
    (mbid title rdate : String) (rtype : Option String) :
    List ReleaseRow × Bool :=
  if releases.any (fun r => r.musicbrainz_id == mbid) then (releases, false)
  else (releases ++ [⟨artist_id, mbid, title, rdate, rtype⟩], true)

structure ArtistRow where
  aid : Int
  name : String
  musicbrainz_id : Option String
  ignore_releases : Bool
  last_checked : Option Int
  check_count : Int
  disambiguation_confidence : Option String
  confidence_last_checked : Option Int
deriving Repr, DecidableEq

def orderedInsert {α : Type} (le : α → α → Bool) (x : α) : List α → List α
  | [] => [x]
  | y :: ys => if le x y then x :: y :: ys else y :: orderedInsert le x ys

/-- Stable insertion sort modelling SQL `ORDER BY`. -/
def insertionSort {α : Type} (le : α → α → Bool) : List α → List α
  | [] => []
  | x :: xs => orderedInsert le x (insertionSort le xs)

/-- `ORDER BY CASE WHEN last_checked IS NULL THEN 0 ELSE 1 END,
last_checked ASC`. -/
def checkingLe (a b : ArtistRow) : Bool :=
  let ra : Nat := if a.last_checked = none then 0 else 1
  let rb : Nat := if b.last_checked = none then 0 else 1
  ra < rb || (ra = rb && a.last_checked.getD 0 ≤ b.last_checked.getD 0)

/-- The rows selected by `get_artists_for_checking` (src/database.py lines
145-163): filter `ignore_releases = FALSE AND musicbrainz_id IS NOT NULL`,
order, `LIMIT ?`.  (The SQL `SELECT` then projects five columns; we keep the
full rows and define the projection separately.) -/
def artistsForCheckingRows (artists : List ArtistRow) (limit : Nat) :
    List ArtistRow :=
  (insertionSort checkingLe
      (artists.filter fun a => !a.ignore_releases && a.musicbrainz_id.isSome)).take
    limit

/-- The column projection of `get_artists_for_checking`:
`id, name, musicbrainz_id, last_checked, check_count`. -/
def get_artists_for_checking (artists : List ArtistRow) (limit : Nat) :
    List (Int × String × Option String × Option Int × Int) :=
  (artistsForCheckingRows artists limit).map fun a =>
    (a.aid, a.name, a.musicbrainz_id, a.last_checked, a.check_count)

/-- `ORDER BY CASE WHEN confidence_last_checked IS NULL THEN 0 WHEN
disambiguation_confidence IN ('low','none') THEN 1 ELSE 2 END,
confidence_last_checked ASC` (a SQL `NULL` confidence is not `IN` the list). -/
def confidencePriority (a : ArtistRow) : Nat :=
  if a.confidence_last_checked = none then 0
  else if a.disambiguation_confidence = some "low" ||
      a.disambiguation_confidence = some "none" then 1
  else 2

def confidenceLe (a b : ArtistRow) : Bool :=
  confidencePriority a < confidencePriority b ||
    (confidencePriority a = confidencePriority b &&
      a.confidence_last_checked.getD 0 ≤ b.confidence_last_checked.getD 0)

/-- The rows selected by `get_artists_for_confidence_check` (src/database.py
lines 300-328): same base filter as the daily batch, its own ordering,
`LIMIT ?`. -/
def artistsForConfidenceRows (artists : List ArtistRow) (limit : Nat) :
    List ArtistRow :=
  (insertionSort confidenceLe
      (artists.filter fun a => !a.ignore_releases && a.musicbrainz_id.isSome)).take
    limit

/-- The column projection of `get_artists_for_confidence_check`. -/
def get_artists_for_confidence_check (artists : List ArtistRow) (limit : Nat) :
    List (Int × String × Option String × Option String × Option Int) :=
  (artistsForConfidenceRows artists limit).map fun a =>
    (a.aid, a.name, a.musicbrainz_id, a.disambiguation_confidence,
      a.confidence_last_checked)

/-! ## Claim C3: `add_release` is idempotent in `musicbrainz_id` -/

/-- C3: `add_release` is idempotent in the catalog release id: on a
`musicbrainz_id` already present in the `releases` relation it returns
`False` and leaves the relation (hence every existing row and the row count)
unchanged; on a fresh `musicbrainz_id` it returns `True` and appends exactly
one row, leaving the existing rows in place. -/
theorem add_release_idempotent_in_mbid :
    ∀ (rs : List ReleaseRow) (aid : Int) (mbid title rdate : String)
      (rtype : Option String),
    ((∃ r ∈ rs, r.musicbrainz_id = mbid) →
      add_release rs aid mbid title rdate rtype = (rs, false)) ∧
    ((∀ r ∈ rs, r.musicbrainz_id ≠ mbid) →
      (add_release rs aid mbid title rdate rtype).2 = true ∧
      (add_release rs aid mbid title rdate rtype).1 =
        rs ++ [⟨aid, mbid, title, rdate, rtype⟩] ∧
      (add_release rs aid mbid title rdate rtype).1.length = rs.length + 1) := by
  intro rs aid mbid title rdate rtype
  constructor
  · rintro ⟨r, hr, hmb⟩
    have h : rs.any (fun r => r.musicbrainz_id == mbid) = true :=
      List.any_eq_true.mpr ⟨r, hr, by simp [hmb]⟩
    simp [add_release, h]
  · intro h
    have h' : rs.any (fun r => r.musicbrainz_id == mbid) = false := by
      rw [List.any_eq_false]
      intro r hr
      simpa using h r hr
    simp [add_release, h']

/-- Witness for C3 at a concrete store: re-adding `"mb1"` is a no-op
reporting `false`; adding the fresh `"mb2"` reports `true`. -/
theorem add_release_idempotent_witness :
    add_release [⟨1, "mb1", "t", "1994-01-01", none⟩] 2 "mb1" "u" "1995-01-01" none =
      ([⟨1, "mb1", "t", "1994-01-01", none⟩], false) ∧
    (add_release [⟨1, "mb1", "t", "1994-01-01", none⟩] 2 "mb2" "u" "1995-01-01" none).2 =
      true := by
  have h1 := add_release_idempotent_in_mbid [⟨1, "mb1", "t", "1994-01-01", none⟩]
    2 "mb1" "u" "1995-01-01" none
  have h2 := add_release_idempotent_in_mbid [⟨1, "mb1", "t", "1994-01-01", none⟩]
    2 "mb2" "u" "1995-01-01" none
  exact ⟨h1.1 ⟨⟨1, "mb1", "t", "1994-01-01", none⟩, by simp, rfl⟩,
    (h2.2 (by decide)).1⟩

/-! ## Claim C7: confidence-level thresholds and monotonicity -/

/-- C7: `get_confidence_level` maps scores through the exact fixed thresholds
(≥ 0.75 → "high", ≥ 0.5 → "medium", ≥ 0.2 → "low", else "none", each
boundary landing in the higher bucket) and is monotonic non-decreasing under
the ordering none < low < medium < high. -/
theorem get_confidence_level_thresholds :
    ∀ s : ℚ,
    (75 / 100 ≤ s → get_confidence_level s = "high") ∧
    (50 / 100 ≤ s → s < 75 / 100 → get_confidence_level s = "medium") ∧
    (20 / 100 ≤ s → s < 50 / 100 → get_confidence_level s = "low") ∧
    (s < 20 / 100 → get_confidence_level s = "none") ∧
    (∀ t, s ≤ t →
      levelRank (get_confidence_level s) ≤ levelRank (get_confidence_level t)) := by
  intro s
  refine ⟨?_, ?_, ?_, ?_, ?_⟩
  · intro h
    unfold get_confidence_level
    split_ifs <;> first | rfl | linarith
  · intro h1 h2
    unfold get_confidence_level
    split_ifs <;> first | rfl | linarith
  · intro h1 h2
    unfold get_confidence_level
    split_ifs <;> first | rfl | linarith
  · intro h
    unfold get_confidence_level
    split_ifs <;> first | rfl | linarith
  · intro t ht
    unfold get_confidence_level
    split_ifs <;> simp [levelRank] <;> linarith

/-- Witness for C7 at the three boundary scores, a non-boundary score, and
one monotonicity instance. -/
theorem get_confidence_level_witness :
    get_confidence_level (75 / 100) = "high" ∧
    get_confidence_level (50 / 100) = "medium" ∧
    get_confidence_level (20 / 100) = "low" ∧
    get_confidence_level (1 / 10) = "none" ∧
    levelRank (get_confidence_level (20 / 100)) ≤
      levelRank (get_confidence_level (75 / 100)) := by
  refine ⟨(get_confidence_level_thresholds _).1 (by norm_num),
    (get_confidence_level_thresholds _).2.1 (by norm_num) (by norm_num),
    (get_confidence_level_thresholds _).2.2.1 (by norm_num) (by norm_num),
    (get_confidence_level_thresholds _).2.2.2.1 (by norm_num),
    (get_confidence_level_thresholds _).2.2.2.2 _ (by norm_num)⟩

/-! ## Claim C8: self-similarity

The claim as stated fails: a non-empty title consisting only of punctuation
(e.g. `"!!!"`) normalizes to the empty string, and `calculate_similarity`
scores any pair with an empty normalization 0, not 1.  The property holds for
every title whose normalization is non-empty. -/

/-- C8 counterexample: `"!!!"` is a non-empty title, yet
`calculate_similarity "!!!" "!!!"` is 0, not 1 (its normalization is empty). -/
theorem calculate_similarity_self_punct_counterexample :
    ("!!!" : String) ≠ "" ∧ normalize_album_title "!!!" = "" ∧
    calculate_similarity "!!!" "!!!" = 0 ∧ calculate_similarity "!!!" "!!!" ≠ 1 := by
  refine ⟨by decide, by decide, by decide, by decide⟩

/-- C8 (amended): for every title whose normalized form is non-empty,
the title compared against itself scores exactly 1. -/
theorem calculate_similarity_self_eq_one :
    ∀ a : String, normalize_album_title a ≠ "" → calculate_similarity a a = 1 := by
  intro a h
  unfold calculate_similarity
  simp [h]

/-- Witness for amended C8 at the concrete title `"Homogenic"`. -/
theorem calculate_similarity_self_witness :
    calculate_similarity "Homogenic" "Homogenic" = 1 :=
  calculate_similarity_self_eq_one "Homogenic" (by decide)

/-! ## Claim C9: symmetry of `calculate_similarity`

The claim fails: `difflib.SequenceMatcher.ratio()` is order-sensitive (its
greedy longest-block decomposition breaks ties towards the first sequence),
so the fuzzy branch of `calculate_similarity` is not symmetric.  Symmetry
does hold on the pairs decided before the ratio is consulted. -/

/-- C9 counterexample: for the titles `"abtba"` and `"baabqt"` (which
normalize to themselves) the two orders give 6/11 and 4/11. -/
theorem calculate_similarity_asymmetric :
    calculate_similarity "abtba" "baabqt" = 6 / 11 ∧
    calculate_similarity "baabqt" "abtba" = 4 / 11 ∧
    calculate_similarity "abtba" "baabqt" ≠ calculate_similarity "baabqt" "abtba" := by
  have h1 : normalize_album_title "abtba" = "abtba" := by decide
  have h2 : normalize_album_title "baabqt" = "baabqt" := by decide
  have hm1 : matchTotal "abtba".data "baabqt".data = 3 := by decide
  have hm2 : matchTotal "baabqt".data "abtba".data = 2 := by decide
  have hl1 : ("abtba".data).length = 5 := by decide
  have hl2 : ("baabqt".data).length = 6 := by decide
  have hin1 : pyInStr "abtba".data "baabqt".data = false := by decide
  have hin2 : pyInStr "baabqt".data "abtba".data = false := by decide
  have hr1 : sequenceRatio "abtba".data "baabqt".data = 6 / 11 := by
    unfold sequenceRatio
    rw [hm1, hl1, hl2]
    norm_num
  have hr2 : sequenceRatio "baabqt".data "abtba".data = 4 / 11 := by
    unfold sequenceRatio
    rw [hm2, hl1, hl2]
    norm_num
  have ha : calculate_similarity "abtba" "baabqt" = 6 / 11 := by
    unfold calculate_similarity
    rw [h1, h2]
    norm_num [hr1, hin1, hin2]
    rw [if_neg (by decide : ¬("abtba" = "" ∨ "baabqt" = "")),
      if_neg (by decide : ¬("abtba" = "baabqt"))]
  have hb : calculate_similarity "baabqt" "abtba" = 4 / 11 := by
    unfold calculate_similarity
    rw [h1, h2]
    norm_num [hr2, hin1, hin2]
    rw [if_neg (by decide : ¬("baabqt" = "" ∨ "abtba" = "")),
      if_neg (by decide : ¬("baabqt" = "abtba"))]
  refine ⟨ha, hb, ?_⟩
  rw [ha, hb]
  norm_num

/-- C9 (amended): `calculate_similarity` is symmetric on every pair that is
decided without the sequence-ratio step, i.e. whenever either title
normalizes to the empty string or both normalize to the same string. -/
theorem calculate_similarity_symm_degenerate :
    ∀ a b : String,
    (normalize_album_title a = "" ∨ normalize_album_title b = "" ∨
      normalize_album_title a = normalize_album_title b) →
    calculate_similarity a b = calculate_similarity b a := by
  intro a b h
  unfold calculate_similarity
  rcases h with h | h | h
  · simp [h]
  · simp [h]
  · rw [h]

/-- Witness for amended C9: two titles with equal normalizations compare
symmetrically. -/
theorem calculate_similarity_symm_witness :
    calculate_similarity "Homogenic" "Homogenic (Remastered)" =
      calculate_similarity "Homogenic (Remastered)" "Homogenic" :=
  calculate_similarity_symm_degenerate _ _ (Or.inr (Or.inr (by decide)))

/-! ## Claim C1: which failures the retry wrapper retries

The claim fails for generic exceptions: the final `except Exception` branch of
`_retry_with_backoff` retries any failure that is neither a `NetworkError`
nor a `ResponseError`, sleeping between attempts.  Only a `ResponseError`
whose cause code is not 429 propagates immediately. -/

/-- C1 counterexample: a first attempt failing with a generic exception
(neither a network error nor a 429 response error) is retried after a backoff
sleep — the wrapper returns the second attempt's success after 2 invocations
and one sleep of 1.2s, instead of propagating the failure after one attempt
with no sleep. -/
theorem retry_generic_exception_retried :
    retry_with_backoff ⟨3, 100, 1, 60⟩
      (fun n => if n = 0 then Except.error PyExc.otherExc else Except.ok 42)
      (fun _ => 0) (fun _ => 1 / 5) = ⟨.ok 42, 2, [6 / 5]⟩ ∧
    (⟨.ok 42, 2, [6 / 5]⟩ : RetryTrace ℕ) ≠ ⟨.exc PyExc.otherExc, 1, []⟩ := by
  constructor
  · simp only [retry_with_backoff, retryLoop, retryable]
    norm_num
  · decide

/-- C1 (amended): a failure that is a `ResponseError` whose cause code is not
429 is never retried: it propagates to the caller immediately after the first
failing attempt, with no backoff sleep and no further attempts.  (Network
errors, 429 response errors and generic exceptions are instead retried.) -/
theorem retry_non429_response_error_propagates :
    ∀ {α : Type} (cfg : RetryCfg) (outcome : Nat → Except PyExc α)
      (dur jitterFrac : Nat → ℚ) (c : Option Int),
    0 ≤ cfg.connection_timeout → 1 ≤ cfg.max_retries →
    outcome 0 = Except.error (PyExc.responseError c) → c ≠ some 429 →
    retry_with_backoff cfg outcome dur jitterFrac =
      ⟨.exc (PyExc.responseError c), 1, []⟩ := by
  intro α cfg outcome dur jitterFrac c h0 h1 hout hc
  obtain ⟨m, hm⟩ : ∃ m, cfg.max_retries = m + 1 := ⟨cfg.max_retries - 1, by omega⟩
  unfold retry_with_backoff
  rw [hm]
  simp only [retryLoop]
  rw [if_neg (not_lt.mpr h0), hout]
  have hr : retryable (PyExc.responseError c) = false := by
    simp [retryable]
    intro h
    exact absurd h hc
  simp [hr]

/-- Witness for amended C1: a 500-status response error propagates after one
attempt with no sleep. -/
theorem retry_non429_witness :
    retry_with_backoff (α := ℕ) ⟨3, 100, 1, 60⟩
      (fun _ => Except.error (PyExc.responseError (some 500)))
      (fun _ => 0) (fun _ => 1 / 5) =
      ⟨.exc (PyExc.responseError (some 500)), 1, []⟩ :=
  retry_non429_response_error_propagates _ _ _ _ (some 500) (by norm_num)
    (by norm_num) rfl (by decide)

/-! ## Claim C2: date-format fallbacks in `get_release_groups`

The claim fails: the nested `try`/`except ValueError` ladder tries the full
date format `%Y-%m-%d` and then the year-month format `%Y-%m`, but there is
no year-only fallback — a record whose date is a bare year such as `"1994"`
matches neither format and is dropped (`continue`), not kept. -/

/-- A single successful page yields exactly the records kept by the
per-record loop. -/
theorem getRG_single_page (cfg : RGFilterCfg) (since : Option PyDate)
    (rs : List RGRecord) :
    get_release_groupsE cfg since [RetryOutcome.ok rs] =
      .ok (rs.filterMap (processRG cfg since)) := by
  unfold get_release_groupsE get_release_groups_body
  simp only [getRGLoop]
  split <;> simp [getRGLoop, pyTry]

/-- A record whose date string matches neither supported format is skipped by
the per-record loop. -/
theorem processRG_unparseable (cfg : RGFilterCfg) (since : Option PyDate)
    (rg : RGRecord) (ds : String) (hd : rg.first_release_date = some ds)
    (h1 : parseFullDate ds = none) (h2 : parseYearMonth ds = none) :
    processRG cfg since rg = none := by
  have hp : parseReleaseDate ds = none := by
    unfold parseReleaseDate
    rw [h1, h2]
  simp only [processRG, hd]
  split_ifs <;> simp [hp]

/-- C2 counterexample: a catalog record carrying the valid year-only date
`"1994"` is dropped by `get_release_groups` (the returned list is empty),
because neither `%Y-%m-%d` nor `%Y-%m` matches it and there is no year-only
fallback. -/
theorem year_only_date_dropped :
    get_release_groups ⟨[], []⟩ none
      [RetryOutcome.ok [⟨some "rg1", some "Album T", some "Album", some "1994"⟩]] =
      [] ∧
    parseFullDate "1994" = none ∧ parseYearMonth "1994" = none := by
  refine ⟨by decide, by decide, by decide⟩

/-- C2 (amended): `get_release_groups` parses each record's first-release-date
by trying the full date format first and then the year-month format; a record
whose date matches neither — including a year-only date — is dropped from the
result while the fetch itself succeeds and every other record is processed
unchanged. -/
theorem unparseable_date_record_dropped :
    ∀ (cfg : RGFilterCfg) (since : Option PyDate) (pre post : List RGRecord)
      (rg : RGRecord) (ds : String),
    rg.first_release_date = some ds →
    parseFullDate ds = none → parseYearMonth ds = none →
    processRG cfg since rg = none ∧
    get_release_groups cfg since [RetryOutcome.ok (pre ++ rg :: post)] =
      get_release_groups cfg since [RetryOutcome.ok (pre ++ post)] ∧
    get_release_groupsE cfg since [RetryOutcome.ok (pre ++ rg :: post)] =
      .ok (get_release_groups cfg since [RetryOutcome.ok (pre ++ rg :: post)]) := by
  intro cfg since pre post rg ds hd h1 h2
  have hnone := processRG_unparseable cfg since rg ds hd h1 h2
  have he1 := getRG_single_page cfg since (pre ++ rg :: post)
  have he2 := getRG_single_page cfg since (pre ++ post)
  have hfm : (pre ++ rg :: post).filterMap (processRG cfg since) =
      (pre ++ post).filterMap (processRG cfg since) := by
    simp [List.filterMap_append, List.filterMap_cons, hnone]
  refine ⟨hnone, ?_, ?_⟩
  · unfold get_release_groups
    rw [he1, he2, hfm]
  · unfold get_release_groups
    rw [he1]

/-- Witness for amended C2: dropping the `"1994"` record keeps the
`"2001-05-03"` record and the fetch succeeds. -/
theorem unparseable_date_witness :
    processRG ⟨[], []⟩ none ⟨some "rg1", some "T", some "Album", some "1994"⟩ =
      none ∧
    get_release_groups ⟨[], []⟩ none
      [RetryOutcome.ok [⟨some "rg1", some "T", some "Album", some "1994"⟩,
        ⟨some "rg2", some "U", some "Album", some "2001-05-03"⟩]] =
      get_release_groups ⟨[], []⟩ none
        [RetryOutcome.ok [⟨some "rg2", some "U", some "Album", some "2001-05-03"⟩]] ∧
    get_release_groupsE ⟨[], []⟩ none
      [RetryOutcome.ok [⟨some "rg1", some "T", some "Album", some "1994"⟩,
        ⟨some "rg2", some "U", some "Album", some "2001-05-03"⟩]] =
      .ok (get_release_groups ⟨[], []⟩ none
        [RetryOutcome.ok [⟨some "rg1", some "T", some "Album", some "1994"⟩,
          ⟨some "rg2", some "U", some "Album", some "2001-05-03"⟩]]) :=
  unparseable_date_record_dropped ⟨[], []⟩ none []
    [⟨some "rg2", some "U", some "Album", some "2001-05-03"⟩]
    ⟨some "rg1", some "T", some "Album", some "1994"⟩ "1994"
    rfl (by decide) (by decide)

/-! ## Claim C6: the scheduler batches never select ignored or unresolved artists -/

theorem mem_of_mem_orderedInsert {α : Type} (le : α → α → Bool) (x y : α)
    (l : List α) : y ∈ orderedInsert le x l → y = x ∨ y ∈ l := by
  induction l with
  | nil =>
    intro h
    simp only [orderedInsert, List.mem_singleton] at h
    exact Or.inl h
  | cons z zs ih =>
    intro h
    simp only [orderedInsert] at h
    split at h
    · rcases List.mem_cons.mp h with h' | h'
      · exact Or.inl h'
      · exact Or.inr h'
    · rcases List.mem_cons.mp h with h' | h'
      · exact Or.inr (List.mem_cons.mpr (Or.inl h'))
      · rcases ih h' with h'' | h''
        · exact Or.inl h''
        · exact Or.inr (List.mem_cons.mpr (Or.inr h''))

theorem mem_of_mem_insertionSort {α : Type} (le : α → α → Bool) (y : α)
    (l : List α) : y ∈ insertionSort le l → y ∈ l := by
  induction l with
  | nil => intro h; simpa [insertionSort] using h
  | cons z zs ih =>
    intro h
    simp only [insertionSort] at h
    rcases mem_of_mem_orderedInsert le z y _ h with h' | h'
    · exact h' ▸ List.mem_cons_self z zs
    · exact List.mem_cons.mpr (Or.inr (ih h'))

/-- C6: for every store state and every limit, neither scheduler batch —
the daily release-check selection (`get_artists_for_checking`) nor the
confidence-revalidation selection (`get_artists_for_confidence_check`) —
ever contains an artist row with `ignore_releases = true`, and every selected
row has a non-null `musicbrainz_id`. -/
theorem scheduler_never_selects_ignored :
    ∀ (artists : List ArtistRow) (limit : Nat) (a : ArtistRow),
    (a ∈ artistsForCheckingRows artists limit →
      a.ignore_releases = false ∧ a.musicbrainz_id ≠ none) ∧
    (a ∈ artistsForConfidenceRows artists limit →
      a.ignore_releases = false ∧ a.musicbrainz_id ≠ none) := by
  intro artists limit a
  constructor <;> intro h
  · have h1 := List.take_subset _ _ h
    have h2 := mem_of_mem_insertionSort _ _ _ h1
    have h3 := (List.mem_filter.mp h2).2
    simp only [Bool.and_eq_true, Bool.not_eq_true', Option.isSome_iff_exists] at h3
    exact ⟨h3.1, by rcases h3.2 with ⟨v, hv⟩; simp [hv]⟩
  · have h1 := List.take_subset _ _ h
    have h2 := mem_of_mem_insertionSort _ _ _ h1
    have h3 := (List.mem_filter.mp h2).2
    simp only [Bool.and_eq_true, Bool.not_eq_true', Option.isSome_iff_exists] at h3
    exact ⟨h3.1, by rcases h3.2 with ⟨v, hv⟩; simp [hv]⟩

/-- Witness for C6 on a concrete store holding one ignored artist, one
unresolved artist and one selectable artist. -/
theorem scheduler_selection_witness :
    (⟨1, "good", some "mb", false, none, 0, none, none⟩ : ArtistRow).ignore_releases =
      false ∧
    (⟨1, "good", some "mb", false, none, 0, none, none⟩ : ArtistRow).musicbrainz_id ≠
      none := by
  exact (scheduler_never_selects_ignored
    [⟨2, "ignored", some "mb2", true, none, 0, none, none⟩,
     ⟨3, "unresolved", none, false, none, 0, none, none⟩,
     ⟨1, "good", some "mb", false, none, 0, none, none⟩] 5
    ⟨1, "good", some "mb", false, none, 0, none, none⟩).1 (by decide)

/-! ## Claim C10: the public query operations contain every failure -/

/-- `except Exception: return default` always yields a value: the caught
result is `ok` of the body's value, or of the default when the body raised. -/
theorem pyTry_never_raises {α : Type} (body : Except PyExc α) (d : α) :
    ∃ v, pyTry body d = .ok v ∧ (∀ e, body = .error e → v = d) := by
  cases body with
  | ok w => exact ⟨w, rfl, fun e h => by cases h⟩
  | error er => exact ⟨d, rfl, fun _ _ => rfl⟩

/-- C10: none of the four public catalog queries lets an exception reach its
caller, whatever the underlying call produced (including the retry wrapper
re-raising): `search_artist` answers `none` on an internal failure,
`get_release_groups` answers `[]`, `validate_artist_confidence` answers
`(0.0, "none")` when the fetch failed, and
`search_artist_with_disambiguation` answers `(none, "none")`. -/
theorem catalog_queries_never_raise :
    (∀ r : RetryOutcome ArtistSearchResp,
      ∃ v, search_artistE r = .ok v ∧
        (∀ e, search_artist_body r = .error e → v = none)) ∧
    (∀ (cfg : RGFilterCfg) (since : Option PyDate)
        (pages : List (RetryOutcome (List RGRecord))),
      ∃ l, get_release_groupsE cfg since pages = .ok l ∧
        (∀ e, get_release_groups_body cfg since pages = .error e → l = [])) ∧
    (∀ (known_albums : List String) (w : ℚ) (cfg : RGFilterCfg)
        (pages : List (RetryOutcome (List RGRecord))) (e : PyExc),
      get_release_groups_body cfg none pages = .error e →
      validate_artist_confidence known_albums w cfg pages = (0, "none")) ∧
    (∀ (r : RetryOutcome ArtistSearchResp) (validate : String → ℚ × String)
        (known_albums : List String) (θ : ℚ),
      ∃ v, search_artist_with_disambiguationE r validate known_albums θ = .ok v ∧
        (∀ e, search_artist_with_disambiguation_body r validate known_albums θ =
          .error e → v = (none, "none"))) := by
  refine ⟨fun r => pyTry_never_raises _ _,
    fun cfg since pages => pyTry_never_raises _ _, ?_,
    fun r validate known_albums θ => pyTry_never_raises _ _⟩
  intro known_albums w cfg pages e hfail
  have hempty : get_release_groups cfg none pages = [] := by
    unfold get_release_groups get_release_groupsE pyTry
    rw [hfail]
  unfold validate_artist_confidence
  rw [hempty]
  by_cases h : known_albums.isEmpty <;> simp [h]

/-- Witness for C10: a network error raised by the retry wrapper is absorbed
by each of the four public queries, which answer their documented defaults. -/
theorem catalog_queries_witness :
    search_artistE (.exc PyExc.networkError) = .ok none ∧
    get_release_groupsE ⟨[], []⟩ none [RetryOutcome.exc PyExc.networkError] =
      .ok [] ∧
    validate_artist_confidence ["a"] 0 ⟨[], []⟩
      [RetryOutcome.exc PyExc.networkError] = (0, "none") ∧
    search_artist_with_disambiguationE (.exc PyExc.networkError)
      (fun _ => (0, "none")) [] 0 = .ok (none, "none") := by
  obtain ⟨v1, h1, d1⟩ := catalog_queries_never_raise.1 (.exc PyExc.networkError)
  obtain ⟨v2, h2, d2⟩ := catalog_queries_never_raise.2.1 ⟨[], []⟩ none
    [RetryOutcome.exc PyExc.networkError]
  have h3 := catalog_queries_never_raise.2.2.1 ["a"] 0 ⟨[], []⟩
    [RetryOutcome.exc PyExc.networkError] PyExc.networkError rfl
  obtain ⟨v4, h4, d4⟩ := catalog_queries_never_raise.2.2.2
    (.exc PyExc.networkError) (fun _ => (0, "none")) [] 0
  refine ⟨?_, ?_, h3, ?_⟩
  · rw [h1, d1 PyExc.networkError rfl]
  · rw [h2, d2 PyExc.networkError rfl]
  · rw [h4, d4 PyExc.networkError rfl]

/-! ## Claim C4: characterization of `find_best_matches` -/

/-- Invariant of the outer loop of `find_best_matches`: starting from any
accumulator, the loop appends exactly the per-album best matches whose score
reaches `min_similarity`, adds their scores, and counts them. -/
theorem fbm_foldl_spec (mb_titles : List String) (ms : ℚ) :
    ∀ (l : List String) (st : FBMState),
    (l.foldl (fbmStep mb_titles ms) st).kept =
      st.kept ++ (l.filter fun a => decide (ms ≤ (bestMatchFor a mb_titles).1)).map
        (fun a => (a, (bestMatchFor a mb_titles).2, (bestMatchFor a mb_titles).1)) ∧
    (l.foldl (fbmStep mb_titles ms) st).total =
      st.total + ((l.filter fun a => decide (ms ≤ (bestMatchFor a mb_titles).1)).map
        (fun a => (bestMatchFor a mb_titles).1)).sum ∧
    (l.foldl (fbmStep mb_titles ms) st).count =
      st.count + (l.filter fun a => decide (ms ≤ (bestMatchFor a mb_titles).1)).length := by
  intro l
  induction l with
  | nil => intro st; simp
  | cons a t ih =>
    intro st
    simp only [List.foldl_cons]
    by_cases h : ms ≤ (bestMatchFor a mb_titles).1
    · have hst : fbmStep mb_titles ms st a =
          ⟨st.kept ++ [(a, (bestMatchFor a mb_titles).2, (bestMatchFor a mb_titles).1)],
            st.total + (bestMatchFor a mb_titles).1, st.count + 1⟩ := by
        unfold fbmStep
        rw [if_pos h]
      rw [hst, List.filter_cons,
        if_pos (by simp [h] : decide (ms ≤ (bestMatchFor a mb_titles).1) = true)]
      obtain ⟨ih1, ih2, ih3⟩ := ih ⟨st.kept ++ [(a, (bestMatchFor a mb_titles).2,
        (bestMatchFor a mb_titles).1)], st.total + (bestMatchFor a mb_titles).1,
        st.count + 1⟩
      refine ⟨?_, ?_, ?_⟩
      · rw [ih1]
        simp [List.append_assoc]
      · rw [ih2]
        simp only [List.map_cons, List.sum_cons]
        ring
      · rw [ih3]
        simp only [List.length_cons]
        omega
    · have hst : fbmStep mb_titles ms st a = st := by
        unfold fbmStep
        rw [if_neg h]
      rw [hst, List.filter_cons,
        if_neg (by simp [h] : ¬ decide (ms ≤ (bestMatchFor a mb_titles).1) = true)]
      exact ih st

/-- C4: `find_best_matches` keeps, per local album, exactly its best-scoring
catalog title when that score reaches `min_similarity`; the returned
confidence is the average of the kept scores multiplied by the fraction of
local albums that were matched (0 when nothing is kept), and either input
list being empty gives `([], 0.0)`. -/
theorem find_best_matches_spec :
    ∀ (local_albums : List String) (mb_release_titles : List (Option String))
      (ms : ℚ),
    find_best_matches [] mb_release_titles ms = ([], 0) ∧
    find_best_matches local_albums [] ms = ([], 0) ∧
    (local_albums ≠ [] → mb_release_titles ≠ [] →
      (find_best_matches local_albums mb_release_titles ms).1 =
        (local_albums.filter fun a =>
          decide (ms ≤ (bestMatchFor a (mb_release_titles.map fun o => o.getD "")).1)).map
          (fun a => (a, (bestMatchFor a (mb_release_titles.map fun o => o.getD "")).2,
            (bestMatchFor a (mb_release_titles.map fun o => o.getD "")).1)) ∧
      (find_best_matches local_albums mb_release_titles ms).2 =
        (if ((local_albums.filter fun a =>
            decide (ms ≤ (bestMatchFor a (mb_release_titles.map fun o => o.getD "")).1)).length) = 0
          then 0
          else (((local_albums.filter fun a =>
              decide (ms ≤ (bestMatchFor a (mb_release_titles.map fun o => o.getD "")).1)).map
              (fun a => (bestMatchFor a (mb_release_titles.map fun o => o.getD "")).1)).sum /
            (((local_albums.filter fun a =>
              decide (ms ≤ (bestMatchFor a (mb_release_titles.map fun o => o.getD "")).1)).length : ℚ))) *
            ((((local_albums.filter fun a =>
              decide (ms ≤ (bestMatchFor a (mb_release_titles.map fun o => o.getD "")).1)).length : ℚ)) /
              (local_albums.length : ℚ)))) := by
  intro local_albums mb_release_titles ms
  refine ⟨by simp [find_best_matches], by simp [find_best_matches], ?_⟩
  intro hla hmb
  have hla' : local_albums.isEmpty = false := by
    cases local_albums with
    | nil => exact absurd rfl hla
    | cons x xs => rfl
  have hmb' : mb_release_titles.isEmpty = false := by
    cases mb_release_titles with
    | nil => exact absurd rfl hmb
    | cons x xs => rfl
  obtain ⟨h1, h2, h3⟩ := fbm_foldl_spec (mb_release_titles.map fun o => o.getD "")
    ms local_albums ⟨[], 0, 0⟩
  unfold find_best_matches
  rw [hla', hmb']
  simp only [Bool.false_or, if_false, Bool.or_self]
  constructor
  · rw [h1]
    simp
  · rw [h2, h3]
    simp

/-- Witness for C4 at a concrete pair of lists whose scores avoid the fuzzy
path: one local album matching one catalog title exactly. -/
theorem find_best_matches_witness :
    (find_best_matches ["Vespertine"] [some "Vespertine"] 0).1 =
      [("Vespertine", "Vespertine", 1)] ∧
    (find_best_matches ["Vespertine"] [some "Vespertine"] 0).2 = 1 := by
  have hb : bestMatchFor "Vespertine" ["Vespertine"] = (1, "Vespertine") := by
    decide
  obtain ⟨h1, h2⟩ := (find_best_matches_spec ["Vespertine"] [some "Vespertine"] 0).2.2
    (by decide) (by decide)
  constructor
  · rw [h1]
    decide
  · rw [h2]
    simp only [List.map_cons, Option.getD_some, List.map_nil]
    have hfilter : List.filter
        (fun a => decide ((0 : ℚ) ≤ (bestMatchFor a ["Vespertine"]).1))
        ["Vespertine"] = ["Vespertine"] := by decide
    rw [hfilter]
    simp only [List.map_cons, List.map_nil, hb, List.length_cons, List.length_nil,
      List.sum_cons, List.sum_nil]
    norm_num

/-! ## Claim C5: the candidate-selection policy of
`search_artist_with_disambiguation`

The claim as stated fails in a corner the code's truthiness test creates:
`best_candidate` starts as `None` and is only replaced on a strictly positive
score, and the acceptance test is `if best_candidate and best_confidence >= threshold`.
With `min_confidence_threshold = 0` and every candidate scoring 0, the best
score (0) reaches the threshold, yet the code returns the first result at
level "low" instead of the best candidate at its computed level. -/

/-- Invariant of the candidate loop: the running best confidence is the
maximum of the scores seen (floored at the initial value), and the state is
either untouched or records some candidate's id, score and level, the score
strictly above the initial one. -/
theorem sawd_foldl_spec (validate : String → ℚ × String) :
    ∀ (l : List ArtistCandidate) (st : Option String × ℚ × String),
    (l.foldl (sawdStep validate) st).2.1 =
      l.foldl (fun m c => max m (validate c.id).1) st.2.1 ∧
    (l.foldl (sawdStep validate) st = st ∨
      (st.2.1 < (l.foldl (sawdStep validate) st).2.1 ∧
        ∃ c ∈ l, (l.foldl (sawdStep validate) st).1 = some c.id ∧
          (l.foldl (sawdStep validate) st).2.1 = (validate c.id).1 ∧
          (l.foldl (sawdStep validate) st).2.2 = (validate c.id).2)) := by
  intro l
  induction l with
  | nil => intro st; exact ⟨rfl, Or.inl rfl⟩
  | cons c t ih =>
    intro st
    simp only [List.foldl_cons]
    by_cases h : st.2.1 < (validate c.id).1
    · have hst : sawdStep validate st c =
          (some c.id, (validate c.id).1, (validate c.id).2) := by
        unfold sawdStep
        rw [if_pos h]
      rw [hst]
      obtain ⟨ih1, ih2⟩ := ih (some c.id, (validate c.id).1, (validate c.id).2)
      constructor
      · rw [ih1]
        have : max st.2.1 (validate c.id).1 = (validate c.id).1 :=
          max_eq_right (le_of_lt h)
        rw [this]
      · rcases ih2 with heq | ⟨hlt, c', hc', h1, h2, h3⟩
        · rw [heq]
          exact Or.inr ⟨h, c, List.mem_cons_self c t, rfl, rfl, rfl⟩
        · refine Or.inr ⟨lt_trans h hlt, c', List.mem_cons.mpr (Or.inr hc'),
            h1, h2, h3⟩
    · have hst : sawdStep validate st c = st := by
        unfold sawdStep
        rw [if_neg h]
      rw [hst]
      obtain ⟨ih1, ih2⟩ := ih st
      constructor
      · rw [ih1]
        have : max st.2.1 (validate c.id).1 = st.2.1 :=
          max_eq_left (not_lt.mp h)
        rw [this]
      · rcases ih2 with heq | ⟨hlt, c', hc', h1, h2, h3⟩
        · exact Or.inl heq
        · exact Or.inr ⟨hlt, c', List.mem_cons.mpr (Or.inr hc'), h1, h2, h3⟩

/-- C5 counterexample: one candidate `"X"` scoring 0 at threshold 0 and a
non-empty known-album list.  The best per-candidate confidence (0) reaches
the configured threshold and its computed level is `"none"`, yet
`search_artist_with_disambiguation` returns the first result at level
`"low"`. -/
theorem disambiguation_zero_score_counterexample :
    search_artist_with_disambiguationE (.ok ⟨1, [⟨"X"⟩]⟩)
      (fun _ => (0, "none")) ["a"] 0 = .ok (some "X", "low") ∧
    ((fun _ => ((0 : ℚ), "none")) "X").2 = "none" ∧ ((0 : ℚ) ≤ 0) ∧
    ("low" : String) ≠ "none" := by
  refine ⟨by rfl, rfl, le_refl 0, by decide⟩

/-- C5 (amended): with at least one candidate and known albums supplied, and
with all candidate ids non-empty: when some candidate scores strictly above
zero and the best per-candidate confidence reaches the threshold, the call
returns a best-scoring candidate's id with its computed level; otherwise —
the best score is 0 (so the falsy `best_candidate` fails the acceptance
test even when the threshold is 0) or the best score is below the
threshold — it returns the first search result's id at level "low". -/
theorem disambiguation_selection_policy :
    ∀ (resp : ArtistSearchResp) (validate : String → ℚ × String)
      (known_albums : List String) (θ : ℚ) (c0 : ArtistCandidate)
      (rest : List ArtistCandidate),
    resp.artist_count ≠ 0 → resp.artist_list = c0 :: rest → known_albums ≠ [] →
    ((∀ c ∈ resp.artist_list, c.id ≠ "") →
      0 < resp.artist_list.foldl (fun m c => max m (validate c.id).1) 0 →
      θ ≤ resp.artist_list.foldl (fun m c => max m (validate c.id).1) 0 →
      ∃ c ∈ resp.artist_list,
        (validate c.id).1 =
          resp.artist_list.foldl (fun m c => max m (validate c.id).1) 0 ∧
        search_artist_with_disambiguationE (.ok resp) validate known_albums θ =
          .ok (some c.id, (validate c.id).2)) ∧
    ((resp.artist_list.foldl (fun m c => max m (validate c.id).1) 0 = 0 ∨
        resp.artist_list.foldl (fun m c => max m (validate c.id).1) 0 < θ) →
      search_artist_with_disambiguationE (.ok resp) validate known_albums θ =
        .ok (some c0.id, "low")) := by
  intro resp validate known_albums θ c0 rest hcount hlist halb
  obtain ⟨cnt, list⟩ := resp
  simp only at hlist
  subst hlist
  have halb' : known_albums.isEmpty = false := by
    cases known_albums with
    | nil => exact absurd rfl halb
    | cons x xs => rfl
  simp only at hcount
  have hbody0 : search_artist_with_disambiguation_body (.ok ⟨cnt, c0 :: rest⟩)
      validate known_albums θ =
      (if pyTruthyOptStr ((c0 :: rest).foldl (sawdStep validate)
            (none, 0, "none")).1 &&
          decide (θ ≤ ((c0 :: rest).foldl (sawdStep validate)
            (none, 0, "none")).2.1) then
        .ok (((c0 :: rest).foldl (sawdStep validate) (none, 0, "none")).1,
          ((c0 :: rest).foldl (sawdStep validate) (none, 0, "none")).2.2)
      else .ok (some c0.id, "low")) := by
    simp only [search_artist_with_disambiguation_body]
    rw [if_neg hcount]
    simp only [halb', Bool.false_eq_true, if_false]
  have hbody : search_artist_with_disambiguationE (.ok ⟨cnt, c0 :: rest⟩) validate
      known_albums θ =
      (if pyTruthyOptStr ((c0 :: rest).foldl (sawdStep validate)
            (none, 0, "none")).1 &&
          decide (θ ≤ ((c0 :: rest).foldl (sawdStep validate)
            (none, 0, "none")).2.1) then
        .ok (((c0 :: rest).foldl (sawdStep validate) (none, 0, "none")).1,
          ((c0 :: rest).foldl (sawdStep validate) (none, 0, "none")).2.2)
      else .ok (some c0.id, "low")) := by
    unfold search_artist_with_disambiguationE
    rw [hbody0]
    split <;> rfl
  obtain ⟨hmax, hdisj⟩ := sawd_foldl_spec validate (c0 :: rest) (none, 0, "none")
  constructor
  · intro hids hpos hθ
    rcases hdisj with heq | ⟨hlt, c, hc, h1, h2, h3⟩
    · rw [heq] at hmax
      rw [← hmax] at hpos
      exact absurd hpos (by norm_num)
    · refine ⟨c, hc, by rw [← h2, hmax], ?_⟩
      rw [hbody]
      have htruthy : pyTruthyOptStr ((c0 :: rest).foldl (sawdStep validate)
          (none, 0, "none")).1 = true := by
        rw [h1]
        unfold pyTruthyOptStr
        simpa using hids c hc
      rw [htruthy, hmax]
      simp only [Bool.true_and, decide_eq_true_eq]
      rw [if_pos hθ, h1, h3]
  · intro hlow
    rw [hbody]
    rcases hlow with h0 | hθ
    · rcases hdisj with heq | ⟨hlt, c, hc, h1, h2, h3⟩
      · rw [heq]
        unfold pyTruthyOptStr
        simp
      · rw [hmax, h0] at hlt
        exact absurd hlt (by norm_num)
    · have : ¬ θ ≤ ((c0 :: rest).foldl (sawdStep validate) (none, 0, "none")).2.1 := by
        rw [hmax]
        exact not_le.mpr hθ
      simp only [this, decide_False, Bool.and_false, Bool.false_eq_true, if_false]

/-- Witness for amended C5: a single candidate scoring 1 at threshold 1 is
returned at its computed level "high"; had it scored 0 the first result
would come back at "low". -/
theorem disambiguation_selection_witness :
    search_artist_with_disambiguationE (.ok ⟨1, [⟨"A"⟩]⟩)
      (fun _ => ((1 : ℚ), "high")) ["x"] 1 = .ok (some "A", "high") ∧
    search_artist_with_disambiguationE (.ok ⟨1, [⟨"B"⟩]⟩)
      (fun _ => ((0 : ℚ), "none")) ["x"] 0 = .ok (some "B", "low") := by
  constructor
  · obtain ⟨c, hc, hval, heq⟩ := (disambiguation_selection_policy ⟨1, [⟨"A"⟩]⟩
      (fun _ => ((1 : ℚ), "high")) ["x"] 1 ⟨"A"⟩ [] (by decide) rfl
      (by decide)).1 (by decide) (by decide) (by decide)
    have : c = ⟨"A"⟩ := List.mem_singleton.mp hc
    subst this
    exact heq
  · exact (disambiguation_selection_policy ⟨1, [⟨"B"⟩]⟩
      (fun _ => ((0 : ℚ), "none")) ["x"] 0 ⟨"B"⟩ [] (by decide) rfl
      (by decide)).2 (Or.inl (by decide))

end NRN
